import Mathlib

/-!
Shallow embedding of the floor-plan overlay subsystem of the `react-mapper`
repository: the `BuildingsLayer` component (the variant with opacity and
masking controls) together with its `fetchBuildingData` / debounce plumbing.

Modelling conventions:
* JS numbers (latitudes, longitudes, pixel coordinates, scale, opacity,
  zoom) are modelled as rationals `ℚ`; float rounding is not modelled.
* Leaflet objects are modelled structurally: `L.LatLng`, `L.LatLngBounds`
  (normalised south-west / north-east box), a selected building polygon as
  its outer vertex ring, and the map's geo-to-pixel projection
  `latLngToContainerPoint` as an arbitrary function `LatLng → Pixel`.
* React state hooks of `BuildingsLayer` become the fields of `CState`; each
  event handler becomes a function on `CState`.  The `useEffect` keyed on
  `floorMap?.url` (object-URL cleanup) is modelled by the `effectUrl` field
  (the dependency value at the last effect run) and the `released` field
  (the log of `URL.revokeObjectURL` calls), applied after every handler.
* The network fetch is asynchronous in the source; it is modelled as a pure
  function of the zoom, the viewport box, and a `tryFetch` parameter that
  stands for the `axios.post` round trip plus the `osmtogeojson`
  normalisation (an exception from either lands in the `catch` block).
-/

namespace ReactMapper

/-- A geographic point, as Leaflet's `L.LatLng`. -/
structure LatLng where
  lat : ℚ
  lng : ℚ
deriving DecidableEq

/-- Leaflet's `L.LatLngBounds`: an axis-aligned geographic box, stored
normalised (`south ≤ north`, `west ≤ east` whenever built by Leaflet). -/
structure LatLngBounds where
  south : ℚ
  west : ℚ
  north : ℚ
  east : ℚ
deriving DecidableEq

/-- `L.latLngBounds(corner1, corner2)`: Leaflet normalises the two corners
into a south-west / north-east box. -/
def latLngBounds (c1 c2 : LatLng) : LatLngBounds :=
  { south := min c1.lat c2.lat
    west := min c1.lng c2.lng
    north := max c1.lat c2.lat
    east := max c1.lng c2.lng }

/-- `LatLngBounds.getCenter()`: midpoint of the box. -/
def LatLngBounds.getCenter (b : LatLngBounds) : LatLng :=
  { lat := (b.south + b.north) / 2, lng := (b.west + b.east) / 2 }

/-- `LatLngBounds.extend(point)`: enlarge the box to contain a point. -/
def LatLngBounds.extend (b : LatLngBounds) (p : LatLng) : LatLngBounds :=
  { south := min b.south p.lat
    west := min b.west p.lng
    north := max b.north p.lat
    east := max b.east p.lng }

/-- The degenerate box of a single point. -/
def pointBounds (p : LatLng) : LatLngBounds :=
  { south := p.lat, west := p.lng, north := p.lat, east := p.lng }

/-- The selected building layer (`L.Polygon`): `getLatLngs()[0]` is its
outer vertex ring. -/
structure BuildingPolygon where
  ring : List LatLng
deriving DecidableEq

/-- `layer.getBounds()` for a polygon: the bounding box of its vertex ring
(Leaflet folds `extend` over the ring). -/
def BuildingPolygon.getBounds (poly : BuildingPolygon) : LatLngBounds :=
  match poly.ring with
  | [] => { south := 0, west := 0, north := 0, east := 0 }
  | p :: rest => rest.foldl LatLngBounds.extend (pointBounds p)

/-- A container-pixel point, as returned by `map.latLngToContainerPoint`. -/
structure Pixel where
  x : ℚ
  y : ℚ
deriving DecidableEq

/-- The map's current geo-to-pixel projection (`latLngToContainerPoint`);
it changes with every pan/zoom, so handlers take it as a parameter. -/
abbrev ViewportTransform := LatLng → Pixel

/-- The `FloorMapState` record of the source. -/
structure FloorMapState where
  url : String
  bounds : LatLngBounds
  scale : ℚ
  rotation : ℤ
  masked : Bool
deriving DecidableEq

/-- The React state of `BuildingsLayer`.
`geojsonData`, `selectedBuilding` (= `selectedBuildingRef.current`),
`floorMap`, `showControls`, `opacity` and `clipPath` are the component's
hooks/refs.  `effectUrl` is the value of the dependency `floorMap?.url` at
the last run of the cleanup `useEffect`; `released` is the chronological
log of `URL.revokeObjectURL` calls (one entry per call). -/
structure CState where
  geojsonData : Option String
  selectedBuilding : Option BuildingPolygon
  floorMap : Option FloorMapState
  showControls : Bool
  opacity : ℚ
  clipPath : String
  effectUrl : Option String
  released : List String
deriving DecidableEq

/-- The points of the clip silhouette: the ring projected point-by-point
(`points.map((point) => map.latLngToContainerPoint(point))`). -/
def clipPoints (proj : ViewportTransform) (ring : List LatLng) : List Pixel :=
  ring.map proj

/-- One `x px y px` entry of the CSS polygon. -/
def pixelEntry (p : Pixel) : String :=
  toString p.x ++ "px " ++ toString p.y ++ "px"

/-- The CSS `polygon(...)` string built from the projected points
(`polygon(clipPoints.join(", "))` in the source). -/
def clipPolygonString (pts : List Pixel) : String :=
  "polygon(" ++ String.intercalate ", " (pts.map pixelEntry) ++ ")"

/-- The body of `updateClipPath`, evaluated against the component state `s`
captured by its `useCallback` closure: if a building is selected and the
captured `floorMap?.masked` is true, the clip path becomes the projected
ring; otherwise it is cleared to the empty string. -/
def updateClipPathCompute (proj : ViewportTransform) (s : CState) : String :=
  match s.selectedBuilding with
  | some poly =>
      match s.floorMap with
      | some fm =>
          if fm.masked then clipPolygonString (clipPoints proj poly.ring) else ""
      | none => ""
  | none => ""

/-- The `move` / `zoom` map-event handler: both events are bound to
`updateClipPath`, which by event time is the callback re-created after the
latest commit, so its closure sees the current committed state. -/
def onMapMove (proj : ViewportTransform) (s : CState) : CState :=
  { s with clipPath := updateClipPathCompute proj s }

/-- `handleBuildingClick`: stores the clicked layer in
`selectedBuildingRef` (popup/DOM wiring is external to the model). -/
def handleBuildingClick (b : BuildingPolygon) (s : CState) : CState :=
  { s with selectedBuilding := some b }

/-- `handleFileUpload`: when a file is present and a building is selected,
create the object URL, initialise the floor map from the selected
building's bounding box with `scale = 1`, `rotation = 0`, `masked = false`,
show the controls and reset the opacity to 1. -/
def handleFileUpload (hasFile : Bool) (url : String) (s : CState) : CState :=
  match s.selectedBuilding with
  | none => s
  | some b =>
      if hasFile then
        { s with
            floorMap := some
              { url := url, bounds := b.getBounds, scale := 1,
                rotation := 0, masked := false }
            showControls := true
            opacity := 1 }
      else s

/-- `handleScaleChange`: guarded by `if (floorMap)`; the updater recomputes
the bounds from the *original* selected-building bounding box scaled about
the centre of the previous bounds.  The read of
`selectedBuildingRef.current` is an unguarded cast in the source; a missing
selection would throw, modelled as `none`. -/
def handleScaleChange (scale : ℚ) (s : CState) : Option CState :=
  match s.floorMap with
  | none => some s
  | some prev =>
      match s.selectedBuilding with
      | none => none
      | some sel =>
          let center := prev.bounds.getCenter
          let originalBounds := sel.getBounds
          let width := originalBounds.east - originalBounds.west
          let height := originalBounds.north - originalBounds.south
          let newBounds := latLngBounds
            { lat := center.lat - height * scale / 2
              lng := center.lng - width * scale / 2 }
            { lat := center.lat + height * scale / 2
              lng := center.lng + width * scale / 2 }
          some { s with floorMap := some { prev with bounds := newBounds, scale := scale } }

/-- `handleRotationChange`: guarded by `if (floorMap)`; stores the parsed
integer rotation. -/
def handleRotationChange (r : ℤ) (s : CState) : CState :=
  match s.floorMap with
  | none => s
  | some fm => { s with floorMap := some { fm with rotation := r } }

/-- `handleOpacityChange`: unconditional `setOpacity`. -/
def handleOpacityChange (o : ℚ) (s : CState) : CState :=
  { s with opacity := o }

/-- `toggleMask`.  Important modelling point: the `updateClipPath()` call
inside the `setFloorMap` updater is the `useCallback`-memoised closure of
the render in which the click was handled, so it reads the *pre-toggle*
`floorMap` (in particular the pre-toggle `masked` flag); the flipped flag
is only visible to callbacks re-created on the next render. -/
def toggleMask (proj : ViewportTransform) (s : CState) : CState :=
  match s.floorMap with
  | none => s
  | some prev =>
      let masked := !prev.masked
      let clip := if masked then updateClipPathCompute proj s else ""
      { s with floorMap := some { prev with masked := masked }, clipPath := clip }

/-- The `Remove Floor Map` button: revoke the current object URL (JS
truthiness: only when it is non-empty), then clear the floor map, hide the
controls and clear the clip path. -/
def removeFloorMap (s : CState) : CState :=
  match s.floorMap with
  | none => { s with floorMap := none, showControls := false, clipPath := "" }
  | some fm =>
      { s with
          released := s.released ++ (if fm.url ≠ "" then [fm.url] else [])
          floorMap := none
          showControls := false
          clipPath := "" }

/-- A fetch result landing in `setGeojsonData` (either `null` from the zoom
gate or a new collection); the data itself is opaque to the overlay
machine. -/
def setGeojsonData (d : Option String) (s : CState) : CState :=
  { s with geojsonData := d }

/-- After every commit React compares the dependency `floorMap?.url` of the
cleanup `useEffect` with its value at the last effect run; when it changed,
the previous cleanup closure runs — `if (floorMap?.url)
URL.revokeObjectURL(floorMap.url)` over the *captured* state — and the
effect re-registers with the new value. -/
def applyUrlEffect (s : CState) : CState :=
  let dep := s.floorMap.map (fun fm => fm.url)
  if dep = s.effectUrl then s
  else
    { s with
        released := s.released ++
          (match s.effectUrl with
           | some u => if u ≠ "" then [u] else []
           | none => [])
        effectUrl := dep }

/-- The user/map events that drive `BuildingsLayer`. -/
inductive Op where
  | buildingClick (b : BuildingPolygon)
  | fileUpload (hasFile : Bool) (url : String)
  | scaleChange (scale : ℚ)
  | rotationChange (r : ℤ)
  | opacityChange (o : ℚ)
  | maskToggle (proj : ViewportTransform)
  | mapMove (proj : ViewportTransform)
  | fetchApply (d : Option String)
  | removeClick

/-- One event handler, before effect processing; `none` models a thrown
`TypeError` (the unguarded `selectedBuildingRef.current` read). -/
def stepRaw (op : Op) (s : CState) : Option CState :=
  match op with
  | Op.buildingClick b => some (handleBuildingClick b s)
  | Op.fileUpload hasFile url => some (handleFileUpload hasFile url s)
  | Op.scaleChange sc => handleScaleChange sc s
  | Op.rotationChange r => some (handleRotationChange r s)
  | Op.opacityChange o => some (handleOpacityChange o s)
  | Op.maskToggle proj => some (toggleMask proj s)
  | Op.mapMove proj => some (onMapMove proj s)
  | Op.fetchApply d => some (setGeojsonData d s)
  | Op.removeClick => some (removeFloorMap s)

/-- One event followed by the commit-time run of the url-cleanup effect. -/
def step (op : Op) (s : CState) : Option CState :=
  (stepRaw op s).map applyUrlEffect

/-- The component's state right after mount: nothing fetched, nothing
selected, no floor map, opacity slider at 1, empty clip path. -/
def initState : CState :=
  { geojsonData := none
    selectedBuilding := none
    floorMap := none
    showControls := false
    opacity := 1
    clipPath := ""
    effectUrl := none
    released := [] }

/-- Run a sequence of events from the mounted component. -/
def run (ops : List Op) : Option CState :=
  ops.foldlM (fun s op => step op s) initState

/-- Run a sequence of scale-slider changes (`handleScaleChange`) from a
given state. -/
def runScales (s : CState) (scales : List ℚ) : Option CState :=
  scales.foldlM (fun st q => handleScaleChange q st) s

/-- The current viewport bounding box as the coordinate strings that the
JS template literal interpolates (`bounds.getSouth()` etc., rendered to
text). -/
structure ViewportBox where
  south : String
  west : String
  north : String
  east : String
deriving DecidableEq

/-- The Overpass query template of `fetchBuildingData`, with the viewport
coordinates interpolated in the order south, west, north, east. -/
def overpassQuery (b : ViewportBox) : String :=
  "\n      [out:json]" ++ "[timeout:25]" ++
  ";\n      (\n        way[\"building\"][\"building\"~\"^(" ++
  "residential|commercial|office|retail" ++ ")$\"](" ++
  b.south ++ "," ++ b.west ++ "," ++ b.north ++ "," ++ b.east ++
  ");\n      );\n      out body 500;\n      >;\n      out skel qt;\n    "

/-- Outcome of one `fetchBuildingData` call: the new `geojsonData` value,
the query of the issued network request (if any), and the console-error
log. -/
structure FetchOutcome (α : Type) where
  geojsonData : Option α
  issued : Option String
  logs : List String
deriving DecidableEq

/-- `fetchBuildingData`: below zoom 15 the footprints are cleared and no
request is issued; otherwise the Overpass query is built and posted.
`tryFetch` stands for the `axios.post` round trip plus the `osmtogeojson`
normalisation — an exception from either is caught, logged, and leaves
`geojsonData` untouched.  The function is total: no exception escapes. -/
def fetchBuildingData {α : Type} (zoom : ℚ) (box : ViewportBox)
    (tryFetch : String → Except String α) (geojsonData : Option α) :
    FetchOutcome α :=
  if zoom < 15 then { geojsonData := none, issued := none, logs := [] }
  else
    let query := overpassQuery box
    match tryFetch query with
    | Except.ok geo => { geojsonData := some geo, issued := some query, logs := [] }
    | Except.error err =>
        { geojsonData := geojsonData
          issued := some query
          logs := ["Error fetching building data: " ++ err] }

/-- One step of lodash's trailing-edge `_.debounce(fetchBuildingData, 500)`
over a timestamped `moveend` event stream: a pending invocation scheduled
by the previous event fires at that event's time plus the wait if the next
event arrives after the deadline (nothing happened in between, so the
fetch reads the bounds of the event that scheduled it); the new event
always becomes the pending one. -/
def debounceStep (wait : ℕ) (acc : List (ℕ × ViewportBox) × Option (ℕ × ViewportBox))
    (e : ℕ × ViewportBox) :
    List (ℕ × ViewportBox) × Option (ℕ × ViewportBox) :=
  match acc.2 with
  | none => (acc.1, some e)
  | some p =>
      if p.1 + wait ≤ e.1 then (acc.1 ++ [(p.1 + wait, p.2)], some e)
      else (acc.1, some e)

/-- All debounced-fetch invocations (fire time, viewport bounds read by the
fetch at that moment) produced by a finite `moveend` stream, including the
trailing flush once the stream goes quiet. -/
def debouncedFetches (wait : ℕ) (events : List (ℕ × ViewportBox)) :
    List (ℕ × ViewportBox) :=
  match events.foldl (debounceStep wait) ([], none) with
  | (fires, none) => fires
  | (fires, some p) => fires ++ [(p.1 + wait, p.2)]

/-- All `fetchBuildingData` invocations of a session: the mount `useEffect`
calls it immediately (time 0, initial bounds), and every later invocation
comes from the debounced `moveend` subscription. -/
def sessionFetches (start : ViewportBox) (events : List (ℕ × ViewportBox)) :
    List (ℕ × ViewportBox) :=
  (0, start) :: debouncedFetches 500 events

/-- Concrete footprint of end-to-end scenario B: bounding box
`((40.710, -74.010), (40.712, -74.008))`. -/
def b0 : BuildingPolygon :=
  { ring :=
      [ { lat := 40.710, lng := -74.010 }
      , { lat := 40.710, lng := -74.008 }
      , { lat := 40.712, lng := -74.008 }
      , { lat := 40.712, lng := -74.010 } ] }

/-- The freshly attached floor map of scenario B. -/
def fm0 : FloorMapState :=
  { url := "blob:floor-map-1", bounds := b0.getBounds, scale := 1,
    rotation := 0, masked := false }

/-- Component state right after scenario B's attachment. -/
def attached0 : CState :=
  { geojsonData := none
    selectedBuilding := some b0
    floorMap := some fm0
    showControls := true
    opacity := 1
    clipPath := ""
    effectUrl := some "blob:floor-map-1"
    released := [] }

/-- Scenario B state with the mask already committed on. -/
def attachedMasked0 : CState :=
  { attached0 with floorMap := some { fm0 with masked := true } }

/-- A concrete viewport transform (an affine projection) used to
instantiate theorems at an executable input. -/
def proj0 : ViewportTransform :=
  fun p => { x := 8 * (p.lng + 75), y := 8 * (41 - p.lat) }

/-- Mounted component after the user clicked footprint `b0` but before any
file was supplied (Empty overlay state). -/
def selected0 : CState := { initState with selectedBuilding := some b0 }

/-- Concrete viewport box of end-to-end scenario A. -/
def vb0 : ViewportBox :=
  { south := "40.70", west := "-74.02", north := "40.72", east := "-74.00" }

/-- Viewport box after a first pan step. -/
def vb1 : ViewportBox :=
  { south := "40.71", west := "-74.03", north := "40.73", east := "-74.01" }

/-- Viewport box after a second pan step. -/
def vb2 : ViewportBox :=
  { south := "40.72", west := "-74.04", north := "40.74", east := "-74.02" }

/-- Viewport box after a third pan step. -/
def vb3 : ViewportBox :=
  { south := "40.73", west := "-74.05", north := "40.75", east := "-74.03" }

/-! ## Helper lemmas -/

theorem foldl_extend_wf (l : List LatLng) (b : LatLngBounds)
    (hsn : b.south ≤ b.north) (hwe : b.west ≤ b.east) :
    (l.foldl LatLngBounds.extend b).south ≤ (l.foldl LatLngBounds.extend b).north ∧
    (l.foldl LatLngBounds.extend b).west ≤ (l.foldl LatLngBounds.extend b).east := by
  induction l generalizing b with
  | nil => exact ⟨hsn, hwe⟩
  | cons p rest ih =>
      apply ih
      · exact le_trans (min_le_left _ _) (le_trans hsn (le_max_left _ _))
      · exact le_trans (min_le_left _ _) (le_trans hwe (le_max_left _ _))

/-- A nonempty polygon's Leaflet bounding box is normalised. -/
theorem getBounds_wf (b : BuildingPolygon) (hr : b.ring ≠ []) :
    b.getBounds.south ≤ b.getBounds.north ∧ b.getBounds.west ≤ b.getBounds.east := by
  unfold BuildingPolygon.getBounds
  cases hring : b.ring with
  | nil => exact absurd hring hr
  | cons p rest => exact foldl_extend_wf rest (pointBounds p) le_rfl le_rfl

/-- `L.latLngBounds` on two corners placed symmetrically about a centre is
already normalised. -/
theorem latLngBounds_symm (c : LatLng) (x y : ℚ) (hx : 0 ≤ x) (hy : 0 ≤ y) :
    latLngBounds { lat := c.lat - x, lng := c.lng - y }
        { lat := c.lat + x, lng := c.lng + y } =
      { south := c.lat - x, west := c.lng - y, north := c.lat + x, east := c.lng + y } := by
  have h1 : min (c.lat - x) (c.lat + x) = c.lat - x := min_eq_left (by linarith)
  have h2 : min (c.lng - y) (c.lng + y) = c.lng - y := min_eq_left (by linarith)
  have h3 : max (c.lat - x) (c.lat + x) = c.lat + x := max_eq_right (by linarith)
  have h4 : max (c.lng - y) (c.lng + y) = c.lng + y := max_eq_right (by linarith)
  simp [latLngBounds, h1, h2, h3, h4]

/-- The centre of a box symmetric about `c` is `c`. -/
theorem getCenter_symm (c : LatLng) (x y : ℚ) :
    LatLngBounds.getCenter
        { south := c.lat - x, west := c.lng - y, north := c.lat + x, east := c.lng + y } = c := by
  cases c with
  | mk lat lng =>
      simp only [LatLngBounds.getCenter]
      have hl : (lat - x + (lat + x)) / 2 = lat := by ring
      have hg : (lng - y + (lng + y)) / 2 = lng := by ring
      rw [hl, hg]

/-- Unfolding of `handleScaleChange` on an attached state with a selected
building. -/
theorem handleScaleChange_attached
    (s : CState) (fm : FloorMapState) (sel : BuildingPolygon) (sc : ℚ)
    (hfm : s.floorMap = some fm) (hsel : s.selectedBuilding = some sel) :
    handleScaleChange sc s = some { s with floorMap := some { fm with
      bounds := latLngBounds
        { lat := fm.bounds.getCenter.lat - (sel.getBounds.north - sel.getBounds.south) * sc / 2
          lng := fm.bounds.getCenter.lng - (sel.getBounds.east - sel.getBounds.west) * sc / 2 }
        { lat := fm.bounds.getCenter.lat + (sel.getBounds.north - sel.getBounds.south) * sc / 2
          lng := fm.bounds.getCenter.lng + (sel.getBounds.east - sel.getBounds.west) * sc / 2 }
      scale := sc } } := by
  simp [handleScaleChange, hfm, hsel]

/-- Centre of the box Leaflet builds from two corners symmetric about `c`. -/
theorem getCenter_latLngBounds_symm (c : LatLng) (x y : ℚ) (hx : 0 ≤ x) (hy : 0 ≤ y) :
    (latLngBounds { lat := c.lat - x, lng := c.lng - y }
        { lat := c.lat + x, lng := c.lng + y }).getCenter = c := by
  rw [latLngBounds_symm c x y hx hy]
  exact getCenter_symm c x y

/-- Two consecutive scale changes collapse to the last one: the first call
preserves the overlay centre, and the second recomputes from the original
footprint bounds about that same centre. -/
theorem handleScaleChange_collapse
    (s : CState) (fm : FloorMapState) (b : BuildingPolygon) (q1 q2 : ℚ)
    (hfm : s.floorMap = some fm) (hb : s.selectedBuilding = some b)
    (hr : b.ring ≠ []) (hq1 : 0 < q1) :
    (handleScaleChange q1 s).bind (handleScaleChange q2) = handleScaleChange q2 s := by
  obtain ⟨hsn, hwe⟩ := getBounds_wf b hr
  have hx : (0:ℚ) ≤ (b.getBounds.north - b.getBounds.south) * q1 / 2 :=
    div_nonneg (mul_nonneg (by linarith) hq1.le) (by norm_num)
  have hy : (0:ℚ) ≤ (b.getBounds.east - b.getBounds.west) * q1 / 2 :=
    div_nonneg (mul_nonneg (by linarith) hq1.le) (by norm_num)
  obtain ⟨gj, sel, flm, shc, op, cp, eu, rel⟩ := s
  simp only [CState.floorMap] at hfm
  simp only [CState.selectedBuilding] at hb
  subst hfm hb
  simp only [handleScaleChange, Option.some_bind]
  rw [getCenter_latLngBounds_symm (fm.bounds.getCenter) _ _ hx hy]

/-- A scale change on an attached state with a selection succeeds and keeps
the attachment and the selection. -/
theorem handleScaleChange_some
    (s : CState) (fm : FloorMapState) (b : BuildingPolygon) (q : ℚ)
    (hfm : s.floorMap = some fm) (hb : s.selectedBuilding = some b) :
    ∃ s1 fm1, handleScaleChange q s = some s1 ∧ s1.floorMap = some fm1 ∧
      s1.selectedBuilding = some b :=
  ⟨_, _, handleScaleChange_attached s fm b q hfm hb, rfl, hb⟩

/-- A nonempty run of scale changes equals its last change alone. -/
theorem runScales_cons_eq_last (qs : List ℚ) :
    ∀ (q : ℚ) (s : CState) (fm : FloorMapState) (b : BuildingPolygon),
    s.floorMap = some fm → s.selectedBuilding = some b → b.ring ≠ [] →
    0 < q → (∀ p ∈ qs, 0 < p) →
    runScales s (q :: qs) = handleScaleChange ((q :: qs).getLast (List.cons_ne_nil q qs)) s := by
  induction qs with
  | nil =>
      intro q s fm b hfm hb hr hq _
      simp [runScales, List.foldlM]
  | cons q' qs' ih =>
      intro q s fm b hfm hb hr hq hpos
      obtain ⟨s1, fm1, h1, hfm1, hb1⟩ := handleScaleChange_some s fm b q hfm hb
      have ihs := ih q' s1 fm1 b hfm1 hb1 hr (hpos q' (by simp))
        (fun p hp => hpos p (by simp [hp]))
      rw [List.getLast_cons (List.cons_ne_nil q' qs')]
      calc runScales s (q :: q' :: qs')
          = (handleScaleChange q s).bind (fun st => runScales st (q' :: qs')) := by
            simp [runScales, List.foldlM_cons]
        _ = runScales s1 (q' :: qs') := by rw [h1, Option.some_bind]
        _ = handleScaleChange ((q' :: qs').getLast (List.cons_ne_nil q' qs')) s1 := ihs
        _ = (handleScaleChange q s).bind
              (handleScaleChange ((q' :: qs').getLast (List.cons_ne_nil q' qs'))) := by
            rw [h1, Option.some_bind]
        _ = handleScaleChange ((q' :: qs').getLast (List.cons_ne_nil q' qs')) s :=
            handleScaleChange_collapse s fm b q _ hfm hb hr hq

/-! ## Claim C1 -/

/-- Claim C1: for every attached overlay and every scale value `sc` in
`[0.1, 2.0]`, `setScale(sc)` (`handleScaleChange`) sets `geoBounds` to a
box whose height and width are `sc` times the height and width of the
original selected footprint's bounding box, centred on the geographic
centre of the overlay's bounds immediately before the call; the remaining
overlay fields are unchanged.  (The witness instantiates scenario C:
`setScale(0.5)` from the freshly attached state of scenario B yields the
half-size box centred on the original overlay centre `(40.711, -74.009)`.) -/
theorem c1_setScale_resizes_about_current_center
    (s : CState) (fm : FloorMapState) (b : BuildingPolygon) (sc : ℚ)
    (hfm : s.floorMap = some fm) (hb : s.selectedBuilding = some b)
    (hr : b.ring ≠ []) (hlo : 1/10 ≤ sc) (hhi : sc ≤ 2) :
    ∃ fm', handleScaleChange sc s = some { s with floorMap := some fm' } ∧
      fm'.bounds.north - fm'.bounds.south
        = sc * (b.getBounds.north - b.getBounds.south) ∧
      fm'.bounds.east - fm'.bounds.west
        = sc * (b.getBounds.east - b.getBounds.west) ∧
      fm'.bounds.getCenter = fm.bounds.getCenter ∧
      fm'.scale = sc ∧ fm'.url = fm.url ∧ fm'.rotation = fm.rotation ∧
      fm'.masked = fm.masked := by
  obtain ⟨hsn, hwe⟩ := getBounds_wf b hr
  have hsc : (0:ℚ) ≤ sc := le_trans (by norm_num) hlo
  have hx : (0:ℚ) ≤ (b.getBounds.north - b.getBounds.south) * sc / 2 :=
    div_nonneg (mul_nonneg (by linarith) hsc) (by norm_num)
  have hy : (0:ℚ) ≤ (b.getBounds.east - b.getBounds.west) * sc / 2 :=
    div_nonneg (mul_nonneg (by linarith) hsc) (by norm_num)
  have key := handleScaleChange_attached s fm b sc hfm hb
  rw [latLngBounds_symm _ _ _ hx hy] at key
  refine ⟨_, key, ?_, ?_, ?_, rfl, rfl, rfl, rfl⟩
  · dsimp only
    ring
  · dsimp only
    ring
  · exact getCenter_symm _ _ _

/-- Witness for C1, at end-to-end scenario C: `setScale(0.5)` on the
freshly attached scenario-B overlay. -/
theorem c1_witness :
    ((1:ℚ)/10 ≤ 1/2 ∧ ((1:ℚ)/2 ≤ 2) ∧ b0.ring ≠ [] ∧
      fm0.bounds.getCenter = { lat := 40.711, lng := -74.009 }) ∧
    (∃ fm', handleScaleChange (1/2) attached0 = some { attached0 with floorMap := some fm' } ∧
      fm'.bounds.north - fm'.bounds.south = 1/2 * (b0.getBounds.north - b0.getBounds.south) ∧
      fm'.bounds.east - fm'.bounds.west = 1/2 * (b0.getBounds.east - b0.getBounds.west) ∧
      fm'.bounds.getCenter = fm0.bounds.getCenter ∧
      fm'.scale = 1/2 ∧ fm'.url = fm0.url ∧ fm'.rotation = fm0.rotation ∧
      fm'.masked = fm0.masked) :=
  ⟨⟨by norm_num, by norm_num, by simp [b0],
    by norm_num [fm0, b0, BuildingPolygon.getBounds, pointBounds,
      LatLngBounds.extend, LatLngBounds.getCenter, min_def, max_def]⟩,
   c1_setScale_resizes_about_current_center attached0 fm0 b0 (1/2) rfl rfl
     (by simp [b0]) (by norm_num) (by norm_num)⟩

/-! ## Claim C7 -/

/-- Claim C7: `setScale` is last-write-wins.  For every attached overlay
with a selected footprint, any nonempty sequence of `setScale` calls (with
scales in the slider's positive range) produces exactly the state of the
last call alone; in particular `setScale(2)` then `setScale(1)` from the
freshly attached state restores the original footprint bounding box (the
equality is exact here because numbers are modelled as rationals). -/
theorem c7_setScale_last_write_wins
    (s : CState) (fm : FloorMapState) (b : BuildingPolygon) (scales : List ℚ)
    (hfm : s.floorMap = some fm) (hb : s.selectedBuilding = some b)
    (hr : b.ring ≠ []) (hne : scales ≠ []) (hpos : ∀ q ∈ scales, 0 < q) :
    runScales s scales = handleScaleChange (scales.getLast hne) s ∧
    (fm.bounds = b.getBounds →
      ∃ fm', runScales s [2, 1] = some { s with floorMap := some fm' } ∧
        fm'.bounds = b.getBounds ∧ fm'.scale = 1) := by
  obtain ⟨hsn, hwe⟩ := getBounds_wf b hr
  constructor
  · cases scales with
    | nil => exact absurd rfl hne
    | cons q qs =>
        exact runScales_cons_eq_last qs q s fm b hfm hb hr
          (hpos q (by simp)) (fun p hp => hpos p (by simp [hp]))
  · intro hbb
    have h21 : runScales s [2, 1] = handleScaleChange 1 s := by
      have := runScales_cons_eq_last [1] 2 s fm b hfm hb hr (by norm_num)
        (by intro p hp; simp only [List.mem_singleton] at hp; subst hp; norm_num)
      simpa using this
    have hx1 : (0:ℚ) ≤ (b.getBounds.north - b.getBounds.south) * 1 / 2 :=
      div_nonneg (mul_nonneg (by linarith) (by norm_num)) (by norm_num)
    have hy1 : (0:ℚ) ≤ (b.getBounds.east - b.getBounds.west) * 1 / 2 :=
      div_nonneg (mul_nonneg (by linarith) (by norm_num)) (by norm_num)
    have key := handleScaleChange_attached s fm b 1 hfm hb
    rw [latLngBounds_symm _ _ _ hx1 hy1] at key
    refine ⟨_, by rw [h21, key], ?_, rfl⟩
    dsimp only
    rw [hbb]
    rcases hB : b.getBounds with ⟨S, W, N, E⟩
    simp only [LatLngBounds.getCenter, LatLngBounds.mk.injEq]
    refine ⟨by ring, by ring, by ring, by ring⟩

/-- Witness for C7 at the scenario-B state with the scale sequence
`[2, 1]`. -/
theorem c7_witness :
    (b0.ring ≠ [] ∧ (([2, 1] : List ℚ) ≠ []) ∧ (∀ q ∈ ([2, 1] : List ℚ), 0 < q) ∧
      fm0.bounds = b0.getBounds) ∧
    (runScales attached0 [2, 1]
        = handleScaleChange (([2, 1] : List ℚ).getLast (List.cons_ne_nil 2 [1])) attached0 ∧
      (fm0.bounds = b0.getBounds →
        ∃ fm', runScales attached0 [2, 1] = some { attached0 with floorMap := some fm' } ∧
          fm'.bounds = b0.getBounds ∧ fm'.scale = 1)) :=
  ⟨⟨by simp [b0], by simp,
    by intro q hq; simp at hq; rcases hq with rfl | rfl <;> norm_num, rfl⟩,
   c7_setScale_last_write_wins attached0 fm0 b0 [2, 1] rfl rfl (by simp [b0])
     (List.cons_ne_nil 2 [1])
     (by intro q hq; simp at hq; rcases hq with rfl | rfl <;> norm_num)⟩

/-! ## Claim C8 -/

/-- Claim C8: for every selected footprint and supplied image file,
attaching the image moves the overlay from Empty to Attached with exactly
the initial state: `geoBounds` equal to the selected footprint's bounding
box, `scale = 1`, `rotation = 0`, `opacity = 1`, `masked = false` (the
controls panel is also shown). -/
theorem c8_attach_initializes_overlay
    (s : CState) (b : BuildingPolygon) (url : String)
    (hb : s.selectedBuilding = some b) (hempty : s.floorMap = none) :
    (handleFileUpload true url s).floorMap
        = some { url := url, bounds := b.getBounds, scale := 1, rotation := 0,
                 masked := false } ∧
    (handleFileUpload true url s).opacity = 1 ∧
    (handleFileUpload true url s).showControls = true := by
  simp [handleFileUpload, hb]

/-- Witness for C8: scenario B's attachment from the Empty state. -/
theorem c8_witness :
    (selected0.selectedBuilding = some b0 ∧ selected0.floorMap = none) ∧
    ((handleFileUpload true "blob:floor-map-1" selected0).floorMap
        = some { url := "blob:floor-map-1", bounds := b0.getBounds, scale := 1,
                 rotation := 0, masked := false } ∧
      (handleFileUpload true "blob:floor-map-1" selected0).opacity = 1 ∧
      (handleFileUpload true "blob:floor-map-1" selected0).showControls = true) :=
  ⟨⟨rfl, rfl⟩, c8_attach_initializes_overlay selected0 b0 "blob:floor-map-1" rfl rfl⟩

/-! ## Claim C6 -/

/-- Claim C6: while `masked` is true and a footprint is selected, every
viewport-change event (the `move` and `zoom` map events both dispatch
`updateClipPath`) leaves the clip silhouette equal to the selected
footprint's vertex ring projected through the new viewport transform, and
the projected silhouette has exactly as many vertices as the ring. -/
theorem c6_masked_clip_resyncs
    (proj : ViewportTransform) (s : CState) (fm : FloorMapState) (b : BuildingPolygon)
    (hfm : s.floorMap = some fm) (hmask : fm.masked = true)
    (hb : s.selectedBuilding = some b) :
    (onMapMove proj s).clipPath = clipPolygonString (clipPoints proj b.ring) ∧
    (clipPoints proj b.ring).length = b.ring.length := by
  constructor
  · simp [onMapMove, updateClipPathCompute, hfm, hb, hmask]
  · simp [clipPoints]

/-- Witness for C6: scenario D's pan after enabling the mask, at a concrete
projection. -/
theorem c6_witness :
    (attachedMasked0.floorMap = some { fm0 with masked := true } ∧
      ({ fm0 with masked := true } : FloorMapState).masked = true ∧
      attachedMasked0.selectedBuilding = some b0) ∧
    ((onMapMove proj0 attachedMasked0).clipPath
        = clipPolygonString (clipPoints proj0 b0.ring) ∧
      (clipPoints proj0 b0.ring).length = b0.ring.length) :=
  ⟨⟨rfl, rfl, rfl⟩,
   c6_masked_clip_resyncs proj0 attachedMasked0 { fm0 with masked := true } b0 rfl rfl rfl⟩

/-! ## Claim C2 -/

/-- Claim C2 fails on the code (code bug): enabling the mask flips `masked`
but leaves the clip silhouette empty.  The `updateClipPath()` call inside
the `setFloorMap` updater is the memoised closure that still sees the
pre-toggle `masked = false`, so it clears the path instead of projecting
the selected footprint's ring — even though the projected silhouette it
should have produced is a nonempty `polygon(...)` string (third conjunct).
The silhouette only appears after the next `move`/`zoom` event. -/
theorem c2_toggle_on_leaves_silhouette_empty :
    (toggleMask proj0 attached0).floorMap = some { fm0 with masked := true } ∧
    (toggleMask proj0 attached0).clipPath = "" ∧
    0 < (clipPolygonString (clipPoints proj0 b0.ring)).length := by
  refine ⟨rfl, rfl, ?_⟩
  rw [clipPolygonString, String.length_append, String.length_append]
  have h8 : ("polygon(" : String).length = 8 := rfl
  rw [h8]
  omega

/-! ## Claim C3 -/

/-- Claim C3 fails on the code (code bug): on removal the handle is
released twice, not once.  First conjunct: attaching `blob:a` and clicking
`Remove Floor Map` logs two `URL.revokeObjectURL` calls for `blob:a` — one
from the button handler and one from the url-keyed cleanup effect firing
when `floorMap?.url` changes to `undefined`.  Second conjunct: the
replacement path does conform — attaching `blob:b` over `blob:a` releases
the old handle exactly once and the new one zero times. -/
theorem c3_remove_releases_twice :
    (run [Op.buildingClick b0, Op.fileUpload true "blob:a", Op.removeClick]).map
        (fun s => s.released) = some ["blob:a", "blob:a"] ∧
    (run [Op.buildingClick b0, Op.fileUpload true "blob:a", Op.fileUpload true "blob:b"]).map
        (fun s => s.released) = some ["blob:a"] :=
  ⟨rfl, rfl⟩

/-! ## Claim C10 -/

/-- The url-cleanup effect does not touch the floor map or the selection. -/
theorem applyUrlEffect_preserves (s : CState) :
    (applyUrlEffect s).floorMap = s.floorMap ∧
    (applyUrlEffect s).selectedBuilding = s.selectedBuilding := by
  unfold applyUrlEffect
  dsimp only
  split
  · exact ⟨rfl, rfl⟩
  · exact ⟨rfl, rfl⟩

/-- The url-cleanup effect preserves the attachment invariant. -/
theorem applyUrlEffect_inv (t : CState)
    (ht : t.floorMap.isSome = true → t.selectedBuilding.isSome = true) :
    (applyUrlEffect t).floorMap.isSome = true →
      (applyUrlEffect t).selectedBuilding.isSome = true := by
  obtain ⟨h1, h2⟩ := applyUrlEffect_preserves t
  rw [h1, h2]
  exact ht

/-- Every event handler succeeds and preserves the invariant that an
attached floor map implies a selected building. -/
theorem step_inv (op : Op) (s : CState)
    (h : s.floorMap.isSome = true → s.selectedBuilding.isSome = true) :
    ∃ s', step op s = some s' ∧
      (s'.floorMap.isSome = true → s'.selectedBuilding.isSome = true) := by
  cases op with
  | buildingClick b =>
      exact ⟨_, rfl, applyUrlEffect_inv _ (fun _ => rfl)⟩
  | fileUpload hasFile url =>
      refine ⟨_, rfl, applyUrlEffect_inv (handleFileUpload hasFile url s) ?_⟩
      unfold handleFileUpload
      cases hsel : s.selectedBuilding with
      | none => exact h
      | some b =>
          cases hasFile with
          | false => exact h
          | true => intro _; rfl
  | scaleChange sc =>
      cases hflm : s.floorMap with
      | none =>
          refine ⟨applyUrlEffect s, ?_, applyUrlEffect_inv s h⟩
          simp [step, stepRaw, handleScaleChange, hflm]
      | some fm =>
          have hsome : ∃ b, s.selectedBuilding = some b := by
            have hs := h (by rw [hflm]; rfl)
            cases hsb : s.selectedBuilding with
            | none => rw [hsb] at hs; exact absurd hs (by simp)
            | some b => exact ⟨b, rfl⟩
          obtain ⟨b, hsb⟩ := hsome
          obtain ⟨s1, fm1, h1, hfm1, hb1⟩ := handleScaleChange_some s fm b sc hflm hsb
          refine ⟨applyUrlEffect s1, ?_, applyUrlEffect_inv s1 ?_⟩
          · simp [step, stepRaw, h1]
          · intro _
            rw [hb1]
            rfl
  | rotationChange r =>
      refine ⟨_, rfl, applyUrlEffect_inv (handleRotationChange r s) ?_⟩
      unfold handleRotationChange
      cases hflm : s.floorMap with
      | none => exact h
      | some fm =>
          intro _
          exact h (by rw [hflm]; rfl)
  | opacityChange o =>
      exact ⟨_, rfl, applyUrlEffect_inv _ h⟩
  | maskToggle proj =>
      refine ⟨_, rfl, applyUrlEffect_inv (toggleMask proj s) ?_⟩
      unfold toggleMask
      cases hflm : s.floorMap with
      | none => exact h
      | some fm =>
          intro _
          exact h (by rw [hflm]; rfl)
  | mapMove proj =>
      exact ⟨_, rfl, applyUrlEffect_inv _ h⟩
  | fetchApply d =>
      exact ⟨_, rfl, applyUrlEffect_inv _ h⟩
  | removeClick =>
      refine ⟨_, rfl, applyUrlEffect_inv (removeFloorMap s) ?_⟩
      unfold removeFloorMap
      cases hflm : s.floorMap with
      | none =>
          intro habs
          exact absurd habs (by simp)
      | some fm =>
          intro habs
          exact absurd habs (by simp)

/-- Invariant preservation along any event sequence. -/
theorem run_inv_aux (ops : List Op) : ∀ (s : CState),
    (s.floorMap.isSome = true → s.selectedBuilding.isSome = true) →
    ∃ s', (ops.foldlM (fun st op => step op st) s : Option CState) = some s' ∧
      (s'.floorMap.isSome = true → s'.selectedBuilding.isSome = true) := by
  induction ops with
  | nil => exact fun s h => ⟨s, rfl, h⟩
  | cons op rest ih =>
      intro s h
      obtain ⟨s1, h1, hinv1⟩ := step_inv op s h
      obtain ⟨s2, h2, hinv2⟩ := ih s1 hinv1
      refine ⟨s2, ?_, hinv2⟩
      rw [List.foldlM_cons, h1]
      exact h2

/-- Claim C10: in every reachable state, an attached overlay implies a
selected footprint, and no event sequence ever makes `handleScaleChange`'s
unguarded `selectedBuildingRef.current` read (or the clip-path
computation) dereference a missing footprint — every run from the mounted
component succeeds. -/
theorem c10_attached_implies_selected (ops : List Op) :
    ∃ s, run ops = some s ∧
      (s.floorMap.isSome = true → s.selectedBuilding.isSome = true) :=
  run_inv_aux ops initState (by intro h; simp [initState] at h)

/-- Witness for C10 at a concrete event sequence ending in a scale change. -/
theorem c10_witness :
    ∃ s, run [Op.buildingClick b0, Op.fileUpload true "blob:a", Op.scaleChange 1] = some s ∧
      (s.floorMap.isSome = true → s.selectedBuilding.isSome = true) :=
  c10_attached_implies_selected
    [Op.buildingClick b0, Op.fileUpload true "blob:a", Op.scaleChange 1]

/-! ## Claim C4 -/

/-- In an ordered event list the head is earliest. -/
theorem chain_le_head (l : List (ℕ × ViewportBox)) :
    ∀ (a : ℕ × ViewportBox), List.Chain' (fun x y => x.1 ≤ y.1) (a :: l) →
    ∀ e ∈ (a :: l), a.1 ≤ e.1 := by
  induction l with
  | nil =>
      intro a _ e he
      rw [List.mem_singleton] at he
      subst he
      exact le_refl _
  | cons b t ih =>
      intro a hch e he
      rcases List.mem_cons.mp he with rfl | he'
      · exact le_refl _
      · have hab : a.1 ≤ b.1 := (List.chain'_cons.mp hch).1
        exact le_trans hab (ih b (List.chain'_cons.mp hch).2 e he')

/-- Folding the debounce over a burst (every event within 500ms of the
first) fires nothing and keeps the last event pending. -/
theorem debounce_burst_aux (h0 : ℕ) :
    ∀ (rest : List (ℕ × ViewportBox)) (p : ℕ × ViewportBox)
      (fires : List (ℕ × ViewportBox)),
    h0 ≤ p.1 → (∀ e ∈ rest, e.1 < h0 + 500) → (∀ e ∈ rest, h0 ≤ e.1) →
    List.foldl (debounceStep 500) (fires, some p) rest
      = (fires, some ((p :: rest).getLast (List.cons_ne_nil p rest))) := by
  intro rest
  induction rest with
  | nil => intro p fires _ _ _; rfl
  | cons e t ih =>
      intro p fires hp hlt hge
      rw [List.foldl_cons]
      have hcond : ¬ (p.1 + 500 ≤ e.1) := by
        have h1 : e.1 < h0 + 500 := hlt e (by simp)
        omega
      have hstep : debounceStep 500 (fires, some p) e = (fires, some e) := by
        simp [debounceStep, hcond]
      rw [hstep,
        ih e fires (hge e (by simp)) (fun x hx => hlt x (by simp [hx]))
          (fun x hx => hge x (by simp [hx])),
        List.getLast_cons (List.cons_ne_nil e t)]

/-- Claim C4: for every rapid nonempty ordered sequence of viewport-change
events falling within a 500ms window, exactly one debounced fetch is
issued, fired 500ms after the last change of the burst and reading the
viewport bounds of that last change; together with the single fetch of the
initial mount, the session's fetch list is exactly those two. -/
theorem c4_debounce_single_fetch_per_burst
    (startB : ViewportBox) (events : List (ℕ × ViewportBox)) (hne : events ≠ [])
    (hord : List.Chain' (fun a b => a.1 ≤ b.1) events)
    (hwin : ∀ e ∈ events, e.1 < (events.head hne).1 + 500) :
    sessionFetches startB events
      = [(0, startB), ((events.getLast hne).1 + 500, (events.getLast hne).2)] := by
  cases events with
  | nil => exact absurd rfl hne
  | cons e0 rest =>
      unfold sessionFetches debouncedFetches
      rw [List.foldl_cons]
      have hstep0 : debounceStep 500 (([], none) :
          List (ℕ × ViewportBox) × Option (ℕ × ViewportBox)) e0 = ([], some e0) := rfl
      rw [hstep0,
        debounce_burst_aux e0.1 rest e0 [] (le_refl _)
          (fun e he => hwin e (by simp [he]))
          (fun e he => chain_le_head rest e0 hord e (by simp [he]))]
      rfl

/-- Witness for C4: a three-event drag burst at times 0, 100, 400 yields
exactly the mount fetch and one fetch at 900 with the last bounds. -/
theorem c4_witness :
    ((([(0, vb1), (100, vb2), (400, vb3)] : List (ℕ × ViewportBox)) ≠ []) ∧
      List.Chain' (fun a b => a.1 ≤ b.1) [(0, vb1), (100, vb2), (400, vb3)] ∧
      (∀ e ∈ ([(0, vb1), (100, vb2), (400, vb3)] : List (ℕ × ViewportBox)),
        e.1 < (([(0, vb1), (100, vb2), (400, vb3)] :
          List (ℕ × ViewportBox)).head (by simp)).1 + 500)) ∧
    sessionFetches vb0 [(0, vb1), (100, vb2), (400, vb3)] = [(0, vb0), (900, vb3)] := by
  refine ⟨⟨by simp, by norm_num [List.chain'_cons], by decide⟩, ?_⟩
  have h := c4_debounce_single_fetch_per_burst vb0 [(0, vb1), (100, vb2), (400, vb3)]
    (by simp) (by norm_num [List.chain'_cons]) (by decide)
  simpa using h

/-! ## Claims C5 and C9 -/

/-- Above the zoom gate a request is always issued, with the Overpass
query, whatever the network outcome. -/
theorem fetchBuildingData_issued_hiZoom {α : Type} (zoom : ℚ) (box : ViewportBox)
    (tryFetch : String → Except String α) (d : Option α) (hz : 15 ≤ zoom) :
    (fetchBuildingData zoom box tryFetch d).issued = some (overpassQuery box) := by
  simp only [fetchBuildingData]
  rw [if_neg (not_lt.mpr hz)]
  cases tryFetch (overpassQuery box) with
  | ok geo => rfl
  | error err => rfl

/-- Claim C5: for every viewport box, when zoom ≥ 15 a fetch is issued
whose query contains the four viewport coordinates in the order south,
west, north, east, the fixed building-tag filter
`residential|commercial|office|retail`, and the timeout parameter
`[timeout:25]`; when zoom < 15 no fetch is issued and the displayed
footprints are cleared. -/
theorem c5_zoom_gate_and_query {α : Type} (zoom : ℚ) (box : ViewportBox)
    (tryFetch : String → Except String α) (d : Option α) :
    (15 ≤ zoom →
      (fetchBuildingData zoom box tryFetch d).issued = some (overpassQuery box) ∧
      (∃ p q : List Char, (overpassQuery box).data
        = p ++ (box.south ++ "," ++ box.west ++ "," ++ box.north ++ "," ++ box.east).data ++ q) ∧
      (∃ p q : List Char, (overpassQuery box).data
        = p ++ ("residential|commercial|office|retail" : String).data ++ q) ∧
      (∃ p q : List Char, (overpassQuery box).data
        = p ++ ("[timeout:25]" : String).data ++ q)) ∧
    (zoom < 15 →
      fetchBuildingData zoom box tryFetch d
        = { geojsonData := none, issued := none, logs := [] }) := by
  constructor
  · intro hz
    refine ⟨fetchBuildingData_issued_hiZoom zoom box tryFetch d hz, ?_, ?_, ?_⟩
    · refine ⟨("\n      [out:json]" ++ "[timeout:25]" ++
        ";\n      (\n        way[\"building\"][\"building\"~\"^(" ++
        "residential|commercial|office|retail" ++ ")$\"](" : String).data,
        (");\n      );\n      out body 500;\n      >;\n      out skel qt;\n    " : String).data, ?_⟩
      simp [overpassQuery, String.data_append]
    · refine ⟨("\n      [out:json]" ++ "[timeout:25]" ++
        ";\n      (\n        way[\"building\"][\"building\"~\"^(" : String).data,
        ((")$\"](" ++ box.south ++ "," ++ box.west ++ "," ++ box.north ++ "," ++ box.east ++
          ");\n      );\n      out body 500;\n      >;\n      out skel qt;\n    " : String)).data, ?_⟩
      simp [overpassQuery, String.data_append]
    · refine ⟨("\n      [out:json]" : String).data,
        ((";\n      (\n        way[\"building\"][\"building\"~\"^(" ++
          "residential|commercial|office|retail" ++ ")$\"](" ++ box.south ++ "," ++ box.west ++
          "," ++ box.north ++ "," ++ box.east ++
          ");\n      );\n      out body 500;\n      >;\n      out skel qt;\n    " : String)).data, ?_⟩
      simp [overpassQuery, String.data_append]
  · intro hz
    simp only [fetchBuildingData]
    rw [if_pos hz]

/-- Witness for C5: zoom 16 issues the scenario-A query; zoom 14 clears
the footprints and issues nothing. -/
theorem c5_witness :
    (((15:ℚ) ≤ 16) ∧ ((14:ℚ) < 15)) ∧
    ((fetchBuildingData 16 vb0 (fun _ => Except.ok (3:ℕ)) (some 7)).issued
        = some (overpassQuery vb0) ∧
      (∃ p q : List Char, (overpassQuery vb0).data
        = p ++ (vb0.south ++ "," ++ vb0.west ++ "," ++ vb0.north ++ "," ++ vb0.east).data ++ q) ∧
      (∃ p q : List Char, (overpassQuery vb0).data
        = p ++ ("residential|commercial|office|retail" : String).data ++ q) ∧
      (∃ p q : List Char, (overpassQuery vb0).data
        = p ++ ("[timeout:25]" : String).data ++ q)) ∧
    fetchBuildingData 14 vb0 (fun _ => Except.ok (3:ℕ)) (some 7)
      = { geojsonData := none, issued := none, logs := [] } :=
  ⟨⟨by norm_num, by norm_num⟩,
   (c5_zoom_gate_and_query 16 vb0 (fun _ => Except.ok (3:ℕ)) (some 7)).1 (by norm_num),
   (c5_zoom_gate_and_query 14 vb0 (fun _ => Except.ok (3:ℕ)) (some 7)).2 (by norm_num)⟩

/-- Claim C9: when the network round trip (or the response normalisation)
fails above the zoom gate, the error is logged, the previously displayed
footprint set is left untouched, and the call still returns normally —
`fetchBuildingData` is a total function, so no exception reaches the
caller; clearing happens only in the zoom-gate branch. -/
theorem c9_fetch_failure_preserves_footprints {α : Type} (zoom : ℚ) (box : ViewportBox)
    (tryFetch : String → Except String α) (d : Option α) (err : String)
    (hz : 15 ≤ zoom) (herr : tryFetch (overpassQuery box) = Except.error err) :
    fetchBuildingData zoom box tryFetch d
      = { geojsonData := d, issued := some (overpassQuery box),
          logs := ["Error fetching building data: " ++ err] } := by
  simp only [fetchBuildingData]
  rw [if_neg (not_lt.mpr hz), herr]

/-- Witness for C9: a failing network call at zoom 16 keeps the previous
footprints and logs the error. -/
theorem c9_witness :
    ((15:ℚ) ≤ 16 ∧
      (fun _ : String => (Except.error "network down" : Except String ℕ)) (overpassQuery vb0)
        = Except.error "network down") ∧
    fetchBuildingData 16 vb0 (fun _ => (Except.error "network down" : Except String ℕ)) (some 7)
      = { geojsonData := some 7, issued := some (overpassQuery vb0),
          logs := ["Error fetching building data: " ++ "network down"] } :=
  ⟨⟨by norm_num, rfl⟩,
   c9_fetch_failure_preserves_footprints 16 vb0 (fun _ => Except.error "network down")
     (some 7) "network down" (by norm_num) rfl⟩

end ReactMapper
